import Mathlib

/-!
Verification of the boostedhh repository's private-NanoAOD catalog crawler
(`data/index_private_nano.py`) and jet-ID object selections
(`src/boostedhh/processors/objects.py`).

The crawler is shallowly embedded: the XRootD directory-listing capability is
a function `List String → Option (List String)` (`none` models the
`FileNotFoundError` raised by `_dirlist` when `status.ok` is false), Python
dicts are association lists with insertion-order update semantics, and Python
exception flow is modelled by returning the post-mutation state together with
an optional exception (mutations performed before an exception persist, as
they do for Python dicts).
-/

/-! ## String utilities (Python `in`, `split(sep)[0]`, `replace`, `endswith`) -/

/-- Python `pat in s` on character lists: some tail of `s` starts with `pat`. -/
def hasSubCL (pat : List Char) : List Char → Bool
  | [] => pat.isEmpty
  | c :: rest => pat.isPrefixOf (c :: rest) || hasSubCL pat rest

/-- Python substring test `pat in s`. -/
def hasSubS (s pat : String) : Bool := hasSubCL pat.data s.data

/-- Characters of `s` before the first occurrence of `pat` (whole list when
`pat` does not occur), matching Python `s.split(pat)[0]` for non-empty `pat`. -/
def takeBeforeCL (pat : List Char) : List Char → List Char
  | [] => []
  | c :: rest => if pat.isPrefixOf (c :: rest) then [] else c :: takeBeforeCL pat rest

/-- Python `s.split(pat)[0]` for the non-empty separators used by the crawler. -/
def splitFirstS (s pat : String) : String := String.mk (takeBeforeCL pat.data s.data)

/-- Replace non-overlapping occurrences of `pat` by `rep`, left to right.
The fuel argument (instantiated with the length of the input) only serves to
make the recursion structural; each step consumes at least one character, so
the fuel never runs out on the wrapper's call. -/
def replaceAux (pat rep : List Char) : Nat → List Char → List Char
  | 0, s => s
  | _ + 1, [] => []
  | fuel + 1, c :: rest =>
    if pat.isPrefixOf (c :: rest) then
      rep ++ replaceAux pat rep fuel (List.drop (pat.length - 1) rest)
    else
      c :: replaceAux pat rep fuel rest

/-- Python `s.replace(pat, rep)` for the non-empty patterns used by the crawler. -/
def replaceS (s pat rep : String) : String :=
  if pat.isEmpty then s else String.mk (replaceAux pat.data rep.data s.data.length s.data)

/-- Python `s.endswith(pat)`. -/
def endsWithS (s pat : String) : Bool := pat.data.isSuffixOf s.data

/-! ## Association lists with Python-dict update semantics -/

/-- Python `d.get(key)`: first binding of `key`. -/
def lookupA {α : Type} : List (String × α) → String → Option α
  | [], _ => none
  | (k, v) :: rest, key => if k = key then some v else lookupA rest key

/-- Python `d[key] = v`: update in place when present, else append. -/
def setA {α : Type} : List (String × α) → String → α → List (String × α)
  | [], key, v => [(key, v)]
  | (k, w) :: rest, key, v =>
    if k = key then (k, v) :: rest else (k, w) :: setA rest key v

/-- Lookup with a default value. -/
def getDA {α : Type} (m : List (String × α)) (key : String) (d : α) : α :=
  (lookupA m key).getD d

/-! ## Catalog data model: year → sample → subsample key → file URLs -/

abbrev SampleEntry := List (String × List String)
abbrev YearEntry := List (String × SampleEntry)
abbrev Catalog := List (String × YearEntry)

/-- `files[year]` (the year entry is always created before it is read). -/
def getYear (files : Catalog) (year : String) : YearEntry := getDA files year []

/-- `files[year][sample]` (the sample entry is always created before it is read). -/
def getSample (files : Catalog) (year sample : String) : SampleEntry :=
  getDA (getYear files year) sample []

/-- `files[year][sample] = e`. -/
def setSample (files : Catalog) (year sample : String) (e : SampleEntry) : Catalog :=
  setA files year (setA (getYear files year) sample e)

/-! ## Exceptions -/

/-- Exceptions the crawler can raise: `FileNotFoundError` from `_dirlist`, the
classifier's `ValueError` (the spec's ClassificationError), and Python's
`UnboundLocalError` for a read of `tfiles` before any loop iteration assigned it. -/
inductive CrawlExc where
  | notFound (path : List String)
  | classification (msg : String)
  | unboundLocal
deriving DecidableEq

/-- Message of the classifier's `ValueError` (source lines 68 and 105). -/
def classifyMsg (s : String) : String :=
  "Could not determine sample from subsample name: " ++ s ++
    ". Please check the naming conventions."

/-! ## Subsample classifier (`_get_sample_from_subsample`, lines 41-105) -/

/-- Ordered data rules of `_get_sample_from_subsample` (lines 49-68);
`none` when no rule matches (the function then raises). -/
def classifyData (s : String) : Option String :=
  if hasSubS s "JetHT" || hasSubS s "JetMET" then some "JetMET"
  else if hasSubS s "EGamma" then some "EGamma"
  else if hasSubS s "Muon" then some "Muon"
  else if hasSubS s "Tau" then some "Tau"
  else if hasSubS s "BTagMu" then some "BTagMu"
  else if hasSubS s "MuonEG" then some "MuonEG"
  else if hasSubS s "ParkingVBF" then some "ParkingVBF"
  else if hasSubS s "ParkingSingleMuon" then some "ParkingSingleMuon"
  else none

/-- Ordered MC rules of `_get_sample_from_subsample` (lines 70-105);
`none` when no rule matches (the function then raises). -/
def classifyMC (s : String) : Option String :=
  if hasSubS s "HHto4B" || hasSubS s "HHto2B2Tau" then
    if hasSubS s "VBF" then
      if hasSubS s "2B2Tau" then some "HHbbtt" else some "HH4b"
    else
      if hasSubS s "2B2Tau" then some "HHbbtt" else some "HH4b"
  else if hasSubS s "Hto2B" then some "Hbb"
  else if hasSubS s "Hto2C" then some "Hcc"
  else if hasSubS s "Hto2Tau" || hasSubS s "HTo2Tau" then some "Htautau"
  else if hasSubS s "QCD-4Jets_HT" then some "QCD"
  else if hasSubS s "QCD_PT" then some "QCD_PT"
  else if hasSubS s "TTto" then some "TT"
  else if ["TbarWplus", "TWminus", "TbarBQ", "TBbarQ"].any (fun x => hasSubS s x) then
    some "SingleTop"
  else if hasSubS s "DYto2L-4Jets" then some "DYJetsLO"
  else if hasSubS s "DYto2L-2Jets" then some "DYJetsNLO"
  else if ["Wto2Q-3Jets", "WtoLNu-4Jets", "Zto2Q-4Jets"].any (fun x => hasSubS s x) then
    some "VJetsLO"
  else if ["Wto2Q-2Jets", "WtoLNu-2Jets", "Zto2Q-2Jets"].any (fun x => hasSubS s x) then
    some "VJetsNLO"
  else if ["WW_", "WZ_", "ZZ_", "WWto4Q", "WWtoLNu2Q", "WZto3LNu", "WZto4Q",
      "ZZto2L2Q", "ZZto4L"].any (fun x => hasSubS s x) then
    some "Diboson"
  else if ["VBFZto2Q", "VBFWto2Q", "VBFto2L", "VBFto2Nu", "VBFtoLNu"].any
      (fun x => hasSubS s x) then
    some "EWKV"
  else if ["WGtoLNuG", "WGto2QG", "ZGto2NuG", "ZGto2QG"].any (fun x => hasSubS s x) then
    some "VGamma"
  else none

/-- `_get_sample_from_subsample(subsample_name, is_data)`: first matching rule's
category, or a `ValueError` naming the input when no rule matches. -/
def getSampleFromSubsample (s : String) (isData : Bool) : Except CrawlExc String :=
  match (if isData then classifyData s else classifyMC s) with
  | some t => Except.ok t
  | none => Except.error (CrawlExc.classification (classifyMsg s))

/-! ## Layout detection (`_has_new_structure`, lines 26-39) -/

/-- The external directory-listing capability: `none` models `FileNotFoundError`. -/
abbrev Listing := List String → Option (List String)

/-- `_has_new_structure(fs, base_dir, user, years)`: `true` (NEW layout) iff the
user's top-level listing succeeds and contains `data_{year}` or `mc_{year}` for
some requested year; `false` (OLD layout) otherwise. -/
def hasNewStructure (fs : Listing) (base : List String) (user : String)
    (years : List String) : Bool :=
  match fs (base ++ [user]) with
  | none => false
  | some contents =>
    years.any (fun y => contents.contains ("data_" ++ y) || contents.contains ("mc_" ++ y))

/-! ## Crawler (`xrootd_index_private_nano`, lines 108-321)

Loop bodies are explicit recursions.  Each returns the state after all
mutations performed so far together with `some exc` when a Python exception
escapes that loop, mirroring that dict mutations made before an exception
persist.  The function-scoped Python local `tfiles` is part of the state
(`none` = not yet assigned; reading it then is `UnboundLocalError`). -/

/-- Crawl parameters fixed for a whole run.  `dataSamples` stands for
`hh_vars.DATA_SAMPLES`.  Modelled from the spec: `hh_vars` is not part of the
sources; the spec describes it as "a configured set of known data-sample
names" used only by the OLD layout, so it is passed in as a parameter. -/
structure Cfg where
  fs : Listing
  red : String
  base : List String
  samplesF : Option (List String)
  subsF : Option (List String)
  ow : Bool
  dataSamples : List String

/-- Mutable state of a run: the catalog accumulator and the function-scoped
Python local `tfiles`. -/
structure CrawlSt where
  files : Catalog
  tfiles : Option (List String)
deriving DecidableEq

/-- URL construction `f"{redirector}{path!s}/{f}"` with `/`-joined paths. -/
def urlOf (red : String) (p : List String) (f : String) : String :=
  red ++ String.intercalate "/" p ++ "/" ++ f

/-- NEW layout, chunk loop (lines 219-224): for each chunk directory `f3`,
list it and append the URLs of its `.root` entries to `tfiles`. -/
def newChunkLoop (cfg : Cfg) (f2path : List String) (f3s : List String)
    (tfiles : List String) : List String × Option CrawlExc :=
  match f3s with
  | [] => (tfiles, none)
  | f3 :: rest =>
    let f3path := f2path ++ [f3]
    match cfg.fs f3path with
    | none => (tfiles, some (CrawlExc.notFound f3path))
    | some contents =>
      let rootFiles := contents.filter (fun f => endsWithS f ".root")
      let tfiles' :=
        if !rootFiles.isEmpty then
          tfiles ++ rootFiles.map (fun f => urlOf cfg.red f3path f)
        else tfiles
      newChunkLoop cfg f2path rest tfiles'

/-- NEW layout, timestamp loop (lines 217-224): list each timestamp directory
`f2` and run the chunk loop, threading `tfiles`. -/
def newTimeLoop (cfg : Cfg) (f1path : List String) (f2s : List String)
    (tfiles : List String) : List String × Option CrawlExc :=
  match f2s with
  | [] => (tfiles, none)
  | f2 :: rest =>
    let f2path := f1path ++ [f2]
    match cfg.fs f2path with
    | none => (tfiles, some (CrawlExc.notFound f2path))
    | some f3s =>
      match newChunkLoop cfg f2path f3s tfiles with
      | (t, some e) => (t, some e)
      | (t, none) => newTimeLoop cfg f1path rest t

/-- NEW layout, data store for one dataset-version directory (lines 227-233):
key `f"{sample}_{run_info}"` with `run_info = f1.replace("_DAZSLE_PFNano", "")`;
initialize the key to `[]` when absent, then extend it with `tfiles`. -/
def storeDataFiles (files : Catalog) (year sample f1 : String)
    (tfiles : List String) : Catalog :=
  let runInfo := replaceS f1 "_DAZSLE_PFNano" ""
  let key := sample ++ "_" ++ runInfo
  let entry := getSample files year sample
  let entry := if (lookupA entry key).isNone then setA entry key [] else entry
  let entry := setA entry key (getDA entry key [] ++ tfiles)
  setSample files year sample entry

/-- NEW layout, dataset-version loop (lines 213-234): reset `tfiles` per
dataset directory `f1`, descend, and for data store the collected files
immediately under the per-directory key. -/
def newDatasetLoop (cfg : Cfg) (isData : Bool) (year sample : String)
    (spath : List String) (f1s : List String) (st : CrawlSt) :
    CrawlSt × Option CrawlExc :=
  match f1s with
  | [] => (st, none)
  | f1 :: rest =>
    let f1path := spath ++ [f1]
    let st1 : CrawlSt := { st with tfiles := some [] }
    match cfg.fs f1path with
    | none => (st1, some (CrawlExc.notFound f1path))
    | some f2s =>
      match newTimeLoop cfg f1path f2s [] with
      | (t, some e) => ({ st1 with tfiles := some t }, some e)
      | (t, none) =>
        let st2 : CrawlSt := { st1 with tfiles := some t }
        if isData then
          let st3 : CrawlSt := { st2 with files := storeDataFiles st2.files year sample f1 t }
          newDatasetLoop cfg isData year sample spath rest st3
        else
          newDatasetLoop cfg isData year sample spath rest st2

/-- Mislabelled-MC rename (lines 238-244): the rewritten name and whether the
warning fires. -/
def fixMislabel (name : String) : String × Bool :=
  if hasSubS name "VBFHHto4B_CV-m2p12" || hasSubS name "VBFHHto4B_CV_m2p12" then
    (replaceS (replaceS name "VBFHHto4B_CV-m2p12" "VBFHHto4B_CV-2p12")
       "VBFHHto4B_CV_m2p12" "VBFHHto4B_CV_2p12", true)
  else (name, false)

/-- NEW layout, body of the `try` block for one subsample (lines 212-246):
list the subsample path, run the dataset-version loop, and for MC store the
last `tfiles` value under the (mislabel-fixed) canonical subsample name. -/
def newSubsampleBody (cfg : Cfg) (isData : Bool) (year sample subsampleName : String)
    (spath : List String) (st : CrawlSt) : CrawlSt × Option CrawlExc :=
  match cfg.fs spath with
  | none => (st, some (CrawlExc.notFound spath))
  | some f1s =>
    match newDatasetLoop cfg isData year sample spath f1s st with
    | (st1, some e) => (st1, some e)
    | (st1, none) =>
      if isData then (st1, none)
      else
        let name := (fixMislabel subsampleName).1
        match st1.tfiles with
        | none => (st1, some CrawlExc.unboundLocal)
        | some t =>
          ({ st1 with
              files := setSample st1.files year sample
                (setA (getSample st1.files year sample) name t) }, none)

/-- NEW layout, subsample loop (lines 182-250): classify (uncaught `ValueError`
aborts), apply the sample filter, create or (`overwrite_sample`) reset the
sample entry, clean the name, and run the `try` body; `FileNotFoundError`
from the body is caught and the loop continues with the next subsample. -/
def newSubsampleLoop (cfg : Cfg) (isData : Bool) (year : String)
    (ypath : List String) (subs : List String) (st : CrawlSt) :
    CrawlSt × Option CrawlExc :=
  match subs with
  | [] => (st, none)
  | sub :: rest =>
    match getSampleFromSubsample sub isData with
    | Except.error e => (st, some e)
    | Except.ok sample =>
      if (match cfg.samplesF with
          | some ss => !ss.contains sample
          | none => false) then
        newSubsampleLoop cfg isData year ypath rest st
      else
        let st1 : CrawlSt :=
          if (lookupA (getYear st.files year) sample).isNone then
            { st with files := setSample st.files year sample [] }
          else if cfg.ow then
            { st with files := setSample st.files year sample [] }
          else st
        let spath := ypath ++ [sub]
        let subsampleName := splitFirstS (splitFirstS sub "_TuneCP5") "_LHEweights"
        match newSubsampleBody cfg isData year sample subsampleName spath st1 with
        | (st2, some (CrawlExc.notFound _)) => newSubsampleLoop cfg isData year ypath rest st2
        | (st2, some e) => (st2, some e)
        | (st2, none) => newSubsampleLoop cfg isData year ypath rest st2

/-- NEW layout, one `is_data` pass (lines 164-250): compute
`data_{year}`/`mc_{year}`, list it when no subsample list was supplied (this
listing is NOT inside a `try`: a `FileNotFoundError` here escapes), then run
the subsample loop. -/
def newIsDataBody (cfg : Cfg) (user year : String) (isData : Bool) (st : CrawlSt) :
    CrawlSt × Option CrawlExc :=
  let ypath := cfg.base ++ [user, (if isData then "data_" else "mc_") ++ year]
  match cfg.subsF with
  | some subs => newSubsampleLoop cfg isData year ypath subs st
  | none =>
    match cfg.fs ypath with
    | none => (st, some (CrawlExc.notFound ypath))
    | some subs => newSubsampleLoop cfg isData year ypath subs st

/-- NEW layout, one year (line 166): `for is_data in (True, False)`. -/
def newYearBody (cfg : Cfg) (user year : String) (st : CrawlSt) :
    CrawlSt × Option CrawlExc :=
  match newIsDataBody cfg user year true st with
  | (st1, some e) => (st1, some e)
  | (st1, none) => newIsDataBody cfg user year false st1

/-- OLD layout, chunk loop (lines 301-307): append URLs of `.root` entries of
each chunk directory to `tfiles` (no emptiness guard in the old code). -/
def oldChunkLoop (cfg : Cfg) (f2path : List String) (f3s : List String)
    (tfiles : List String) : List String × Option CrawlExc :=
  match f3s with
  | [] => (tfiles, none)
  | f3 :: rest =>
    let f3path := f2path ++ [f3]
    match cfg.fs f3path with
    | none => (tfiles, some (CrawlExc.notFound f3path))
    | some contents =>
      let tfiles' :=
        tfiles ++ (contents.filter (fun f => endsWithS f ".root")).map
          (fun f => urlOf cfg.red f3path f)
      oldChunkLoop cfg f2path rest tfiles'

/-- OLD layout, timestamp loop (lines 298-307): `tfiles` is reset at each `f2`
iteration and left holding the last iteration's accumulation. -/
def oldTimeLoop (cfg : Cfg) (f1path : List String) (f2s : List String)
    (st : CrawlSt) : CrawlSt × Option CrawlExc :=
  match f2s with
  | [] => (st, none)
  | f2 :: rest =>
    let f2path := f1path ++ [f2]
    let st1 : CrawlSt := { st with tfiles := some [] }
    match cfg.fs f2path with
    | none => (st1, some (CrawlExc.notFound f2path))
    | some f3s =>
      match oldChunkLoop cfg f2path f3s [] with
      | (t, some e) => ({ st1 with tfiles := some t }, some e)
      | (t, none) => oldTimeLoop cfg f1path rest { st1 with tfiles := some t }

/-- OLD layout, `f1` loop (lines 289-311): for data, each `f1` becomes a key
holding the last timestamp directory's `tfiles`. -/
def oldF1Loop (cfg : Cfg) (isData : Bool) (year sample : String)
    (sspath : List String) (f1s : List String) (st : CrawlSt) :
    CrawlSt × Option CrawlExc :=
  match f1s with
  | [] => (st, none)
  | f1 :: rest =>
    let f1path := sspath ++ [f1]
    match cfg.fs f1path with
    | none => (st, some (CrawlExc.notFound f1path))
    | some f2s =>
      match oldTimeLoop cfg f1path f2s st with
      | (st1, some e) => (st1, some e)
      | (st1, none) =>
        if isData then
          match st1.tfiles with
          | none => (st1, some CrawlExc.unboundLocal)
          | some t =>
            let st2 : CrawlSt :=
              { st1 with
                  files := setSample st1.files year sample
                    (setA (getSample st1.files year sample) f1 t) }
            oldF1Loop cfg isData year sample sspath rest st2
        else oldF1Loop cfg isData year sample sspath rest st1

/-- OLD layout, subsample loop (lines 277-319): clean the name, run the `try`
body (descend; for MC store the last `tfiles` under the cleaned name);
`FileNotFoundError` from the body is caught and the loop continues. -/
def oldSubsampleLoop (cfg : Cfg) (isData : Bool) (year sample : String)
    (spath : List String) (subs : List String) (st : CrawlSt) :
    CrawlSt × Option CrawlExc :=
  match subs with
  | [] => (st, none)
  | sub :: rest =>
    let subsampleName := splitFirstS (splitFirstS sub "_TuneCP5") "_LHEweights"
    let sspath := spath ++ [sub]
    match (match cfg.fs sspath with
           | none => (st, some (CrawlExc.notFound sspath))
           | some f1s =>
             match oldF1Loop cfg isData year sample sspath f1s st with
             | (st1, some e) => (st1, some e)
             | (st1, none) =>
               if !isData then
                 match st1.tfiles with
                 | none => (st1, some CrawlExc.unboundLocal)
                 | some t =>
                   ({ st1 with
                       files := setSample st1.files year sample
                         (setA (getSample st1.files year sample) subsampleName t) }, none)
               else (st1, none)) with
    | (st2, some (CrawlExc.notFound _)) =>
      oldSubsampleLoop cfg isData year sample spath rest st2
    | (st2, some e) => (st2, some e)
    | (st2, none) => oldSubsampleLoop cfg isData year sample spath rest st2

/-- OLD layout, sample loop (lines 260-319): create or (`overwrite_sample`)
reset the sample entry, determine `is_data` by membership in the configured
data-sample set, list the sample path inside a `try` (a `FileNotFoundError`
skips the sample), and run the subsample loop. -/
def oldSampleLoop (cfg : Cfg) (year : String) (ypath : List String)
    (samples : List String) (st : CrawlSt) : CrawlSt × Option CrawlExc :=
  match samples with
  | [] => (st, none)
  | sample :: rest =>
    let st1 : CrawlSt :=
      if (lookupA (getYear st.files year) sample).isNone then
        { st with files := setSample st.files year sample [] }
      else if cfg.ow then
        { st with files := setSample st.files year sample [] }
      else st
    let spath := ypath ++ [sample]
    let isData := cfg.dataSamples.contains sample
    let tsubs : Option (List String) :=
      match cfg.subsF with
      | some subs => some subs
      | none => cfg.fs spath
    match tsubs with
    | none => oldSampleLoop cfg year ypath rest st1
    | some subs =>
      match oldSubsampleLoop cfg isData year sample spath subs st1 with
      | (st2, some e) => (st2, some e)
      | (st2, none) => oldSampleLoop cfg year ypath rest st2

/-- OLD layout, one year (lines 252-258): list the year path inside a `try`
(a `FileNotFoundError` skips the year), then run the sample loop. -/
def oldYearBody (cfg : Cfg) (user year : String) (st : CrawlSt) :
    CrawlSt × Option CrawlExc :=
  let ypath := cfg.base ++ [user, year]
  let tsamples : Option (List String) :=
    match cfg.samplesF with
    | some ss => some ss
    | none => cfg.fs ypath
  match tsamples with
  | none => (st, none)
  | some ss => oldSampleLoop cfg year ypath ss st

/-- Year loop (lines 159-162 plus the layout branch): ensure `files[year]`
exists, then process the year under the detected layout. -/
def yearLoop (cfg : Cfg) (useNew : Bool) (user : String) (years : List String)
    (st : CrawlSt) : CrawlSt × Option CrawlExc :=
  match years with
  | [] => (st, none)
  | year :: rest =>
    let st1 : CrawlSt :=
      if (lookupA st.files year).isNone then
        { st with files := setA st.files year [] }
      else st
    match (if useNew then newYearBody cfg user year st1 else oldYearBody cfg user year st1) with
    | (st2, some e) => (st2, some e)
    | (st2, none) => yearLoop cfg useNew user rest st2

/-- User loop (line 156). -/
def userLoop (cfg : Cfg) (useNew : Bool) (users years : List String)
    (st : CrawlSt) : CrawlSt × Option CrawlExc :=
  match users with
  | [] => (st, none)
  | u :: rest =>
    match yearLoop cfg useNew u years st with
    | (st1, some e) => (st1, some e)
    | (st1, none) => userLoop cfg useNew rest years st1

/-- `xrootd_index_private_nano` (lines 108-321): resolve the user list (listing
`base_dir` when none was given), start from the supplied prior catalog (an
empty one when `files is None`), return `{}` when there are no users, else
detect the layout from the first user and run the crawl.  `Except.error`
models an exception escaping the Python function. -/
def xrootdIndexPrivateNano (fs : Listing) (base : List String) (red : String)
    (users? : Option (List String)) (years : List String)
    (samples? subsamples? : Option (List String)) (files? : Option Catalog)
    (ow : Bool) (dataSamples : List String) : Except CrawlExc Catalog :=
  match (match users? with
         | some us => Except.ok us
         | none =>
           match fs base with
           | some us => Except.ok us
           | none => Except.error (CrawlExc.notFound base)) with
  | Except.error e => Except.error e
  | Except.ok users =>
    let files := files?.getD []
    if users.length > 0 then
      let useNew := hasNewStructure fs base users.headI years
      let cfg : Cfg := ⟨fs, red, base, samples?, subsamples?, ow, dataSamples⟩
      match userLoop cfg useNew users years ⟨files, none⟩ with
      | (_, some e) => Except.error e
      | (st, none) => Except.ok st.files
    else
      Except.ok []

/-- Whether an escaping exception is a `FileNotFoundError`. -/
def isNotFoundExc : Option CrawlExc → Bool
  | some (CrawlExc.notFound _) => true
  | _ => false

/-- A subsample key is present in the catalog at `(year, sample)`. -/
def hasKey (files : Catalog) (year sample k : String) : Bool :=
  (lookupA (getSample files year sample) k).isSome

/-- Catalog `b` preserves catalog `a` outside the crawl's write scope: every
subsample key present in `a` is still present in `b`, and every year entry
outside `ys` is exactly unchanged. -/
def PreservesKeys (a b : Catalog) (ys : List String) : Prop :=
  (∀ y s k, hasKey a y s k = true → hasKey b y s k = true)
  ∧ (∀ y, y ∉ ys → lookupA b y = lookupA a y)

/-! ## Jet ID selections (`objects.py`)

One jet's fields; the floating-point energy fractions and eta are modelled as
rationals (only order comparisons are performed on them), the `jetId` bitmask
as a natural number and the multiplicities as integers. -/

structure Jet where
  eta : ℚ
  jetId : Nat
  neHEF : ℚ
  neEmEF : ℚ
  muEF : ℚ
  chEmEF : ℚ
  chHEF : ℚ
  chMultiplicity : Int
  neMultiplicity : Int

/-- `jetid_v12` on one jet (lines 9-30); decimal cuts written as fractions
(2.7 = 27/10, 3.0 = 3, 0.99 = 99/100, 0.4 = 2/5, 0.8 = 4/5). -/
def jetidV12 (j : Jet) : Bool × Bool :=
  let jetidtightbit := j.jetId &&& 2 == 2
  let jetidtight :=
    (decide (|j.eta| ≤ 27/10) && jetidtightbit)
    || ((decide (27/10 < |j.eta|) && decide (|j.eta| ≤ 3)) && jetidtightbit
        && decide (j.neHEF < 99/100))
    || (decide (3 < |j.eta|) && jetidtightbit && decide (j.neEmEF < 2/5))
  let jetidtightlepveto :=
    (decide (|j.eta| ≤ 27/10) && jetidtight && decide (j.muEF < 4/5)
        && decide (j.chEmEF < 4/5))
    || (decide (27/10 < |j.eta|) && jetidtight)
  (jetidtight, jetidtightlepveto)

/-- `jetid_v14` on one jet (lines 33-61); decimal cuts written as fractions
(2.6 = 13/5, 2.7 = 27/10, 0.99 = 99/100, 0.9 = 9/10, 0.01 = 1/100,
0.4 = 2/5, 0.8 = 4/5). -/
def jetidV14 (j : Jet) : Bool × Bool :=
  let jetidtight :=
    (decide (|j.eta| ≤ 13/5) && decide (j.neHEF < 99/100) && decide (j.neEmEF < 9/10)
        && decide (j.chMultiplicity + j.neMultiplicity > 1) && decide (j.chHEF > 1/100)
        && decide (j.chMultiplicity > 0))
    || ((decide (13/5 < |j.eta|) && decide (|j.eta| ≤ 27/10)) && decide (j.neHEF < 9/10)
        && decide (j.neEmEF < 99/100))
    || ((decide (27/10 < |j.eta|) && decide (|j.eta| ≤ 3)) && decide (j.neHEF < 99/100))
    || (decide (3 < |j.eta|) && decide (j.neMultiplicity ≥ 2) && decide (j.neEmEF < 2/5))
  let jetidtightlepveto :=
    (decide (|j.eta| ≤ 27/10) && jetidtight && decide (j.muEF < 4/5)
        && decide (j.chEmEF < 4/5))
    || (decide (27/10 < |j.eta|) && jetidtight)
  (jetidtight, jetidtightlepveto)

/-- `jetid_v12` on a jet array: the pair of vectorized boolean masks. -/
def jetidV12Masks (jets : List Jet) : List Bool × List Bool :=
  (jets.map (fun j => (jetidV12 j).1), jets.map (fun j => (jetidV12 j).2))

/-- `jetid_v14` on a jet array: the pair of vectorized boolean masks. -/
def jetidV14Masks (jets : List Jet) : List Bool × List Bool :=
  (jets.map (fun j => (jetidV14 j).1), jets.map (fun j => (jetidV14 j).2))

/-! ## Concrete scenario filesystems used by individual claims -/

/-- C1 scenario: NEW layout detected via `data_2022`, but `mc_2022` is missing
for the same user, so the uncaught year-level listing fails. -/
def fsC1 : Listing := fun p =>
  if p = ["b", "alice"] then some ["data_2022"]
  else if p = ["b", "alice", "data_2022"] then some []
  else none

/-- C2 scenario: one MC subsample with two dataset-version directories, each
holding one `.root` file. -/
def fsC2 : Listing := fun p =>
  if p = ["b", "alice"] then some ["mc_2022"]
  else if p = ["b", "alice", "data_2022"] then some []
  else if p = ["b", "alice", "mc_2022"] then some ["GluGluHHto4B_TuneCP5"]
  else if p = ["b", "alice", "mc_2022", "GluGluHHto4B_TuneCP5"] then some ["v1", "v2"]
  else if p = ["b", "alice", "mc_2022", "GluGluHHto4B_TuneCP5", "v1"] then some ["t1"]
  else if p = ["b", "alice", "mc_2022", "GluGluHHto4B_TuneCP5", "v1", "t1"] then some ["0000"]
  else if p = ["b", "alice", "mc_2022", "GluGluHHto4B_TuneCP5", "v1", "t1", "0000"] then
    some ["a.root"]
  else if p = ["b", "alice", "mc_2022", "GluGluHHto4B_TuneCP5", "v2"] then some ["t2"]
  else if p = ["b", "alice", "mc_2022", "GluGluHHto4B_TuneCP5", "v2", "t2"] then some ["0000"]
  else if p = ["b", "alice", "mc_2022", "GluGluHHto4B_TuneCP5", "v2", "t2", "0000"] then
    some ["b.root"]
  else none

/-- C3 scenario: an append-mode re-crawl that touches the MC key
`GluGluHHto4B` and the data key `JetMET_Run2022C` of the prior catalog and
leaves its key `untouched` alone. -/
def fsC3 : Listing := fun p =>
  if p = ["b", "alice"] then some ["mc_2022"]
  else if p = ["b", "alice", "data_2022"] then some ["JetMET"]
  else if p = ["b", "alice", "data_2022", "JetMET"] then some ["Run2022C_DAZSLE_PFNano"]
  else if p = ["b", "alice", "data_2022", "JetMET", "Run2022C_DAZSLE_PFNano"] then some ["t"]
  else if p = ["b", "alice", "data_2022", "JetMET", "Run2022C_DAZSLE_PFNano", "t"] then
    some ["0000"]
  else if p = ["b", "alice", "data_2022", "JetMET", "Run2022C_DAZSLE_PFNano", "t", "0000"] then
    some ["d.root"]
  else if p = ["b", "alice", "mc_2022"] then some ["GluGluHHto4B_TuneCP5"]
  else if p = ["b", "alice", "mc_2022", "GluGluHHto4B_TuneCP5"] then some ["v1"]
  else if p = ["b", "alice", "mc_2022", "GluGluHHto4B_TuneCP5", "v1"] then some ["t1"]
  else if p = ["b", "alice", "mc_2022", "GluGluHHto4B_TuneCP5", "v1", "t1"] then some ["0000"]
  else if p = ["b", "alice", "mc_2022", "GluGluHHto4B_TuneCP5", "v1", "t1", "0000"] then
    some ["new.root"]
  else none

/-- C3 scenario: the persisted catalog reloaded from JSON (append mode). -/
def priorC3 : Catalog :=
  [("2022",
    [("HH4b", [("GluGluHHto4B", ["old.root"]), ("untouched", ["keep.root"])]),
     ("JetMET", [("JetMET_Run2022C", ["olddata.root"])])])]

/-- C3 scenario: the catalog the re-crawl produces. -/
def catC3 : Catalog :=
  [("2022",
    [("HH4b",
      [("GluGluHHto4B", ["r//b/alice/mc_2022/GluGluHHto4B_TuneCP5/v1/t1/0000/new.root"]),
       ("untouched", ["keep.root"])]),
     ("JetMET",
      [("JetMET_Run2022C",
        ["olddata.root",
         "r//b/alice/data_2022/JetMET/Run2022C_DAZSLE_PFNano/t/0000/d.root"])])])]

/-- C4 scenario: two MC subsamples that both classify to sample `QCD`, with a
prior catalog already holding a `QCD` entry. -/
def fsC4 : Listing := fun p =>
  if p = ["b", "alice"] then some ["mc_2022"]
  else if p = ["b", "alice", "data_2022"] then some []
  else if p = ["b", "alice", "mc_2022"] then
    some ["QCD-4Jets_HT-100to200", "QCD-4Jets_HT-200to400"]
  else if p = ["b", "alice", "mc_2022", "QCD-4Jets_HT-100to200"] then some ["v1"]
  else if p = ["b", "alice", "mc_2022", "QCD-4Jets_HT-100to200", "v1"] then some ["t"]
  else if p = ["b", "alice", "mc_2022", "QCD-4Jets_HT-100to200", "v1", "t"] then some ["0000"]
  else if p = ["b", "alice", "mc_2022", "QCD-4Jets_HT-100to200", "v1", "t", "0000"] then
    some ["q1.root"]
  else if p = ["b", "alice", "mc_2022", "QCD-4Jets_HT-200to400"] then some ["v1"]
  else if p = ["b", "alice", "mc_2022", "QCD-4Jets_HT-200to400", "v1"] then some ["t"]
  else if p = ["b", "alice", "mc_2022", "QCD-4Jets_HT-200to400", "v1", "t"] then some ["0000"]
  else if p = ["b", "alice", "mc_2022", "QCD-4Jets_HT-200to400", "v1", "t", "0000"] then
    some ["q2.root"]
  else none

/-- C7 scenario: one data subsample with two dataset-version directories that
map to the same storage key after `_DAZSLE_PFNano` stripping. -/
def fsC7 : Listing := fun p =>
  if p = ["b", "u"] then some ["data_2022"]
  else if p = ["b", "u", "data_2022"] then some ["JetMET"]
  else if p = ["b", "u", "mc_2022"] then some []
  else if p = ["b", "u", "data_2022", "JetMET"] then
    some ["Run2022C_DAZSLE_PFNano", "Run2022C"]
  else if p = ["b", "u", "data_2022", "JetMET", "Run2022C_DAZSLE_PFNano"] then some ["t1"]
  else if p = ["b", "u", "data_2022", "JetMET", "Run2022C_DAZSLE_PFNano", "t1"] then
    some ["0000"]
  else if p = ["b", "u", "data_2022", "JetMET", "Run2022C_DAZSLE_PFNano", "t1", "0000"] then
    some ["d1.root"]
  else if p = ["b", "u", "data_2022", "JetMET", "Run2022C"] then some ["t2"]
  else if p = ["b", "u", "data_2022", "JetMET", "Run2022C", "t2"] then some ["0000"]
  else if p = ["b", "u", "data_2022", "JetMET", "Run2022C", "t2", "0000"] then some ["d2.root"]
  else none

/-- C8 scenario: the two mislabelled MC subsample name variants. -/
def fsC8 : Listing := fun p =>
  if p = ["b", "u"] then some ["mc_2022"]
  else if p = ["b", "u", "data_2022"] then some []
  else if p = ["b", "u", "mc_2022"] then
    some ["VBFHHto4B_CV-m2p12_TuneCP5", "VBFHHto4B_CV_m2p12_TuneCP5"]
  else if p = ["b", "u", "mc_2022", "VBFHHto4B_CV-m2p12_TuneCP5"] then some ["v"]
  else if p = ["b", "u", "mc_2022", "VBFHHto4B_CV-m2p12_TuneCP5", "v"] then some ["t"]
  else if p = ["b", "u", "mc_2022", "VBFHHto4B_CV-m2p12_TuneCP5", "v", "t"] then some ["0000"]
  else if p = ["b", "u", "mc_2022", "VBFHHto4B_CV-m2p12_TuneCP5", "v", "t", "0000"] then
    some ["m1.root"]
  else if p = ["b", "u", "mc_2022", "VBFHHto4B_CV_m2p12_TuneCP5"] then some ["v"]
  else if p = ["b", "u", "mc_2022", "VBFHHto4B_CV_m2p12_TuneCP5", "v"] then some ["t"]
  else if p = ["b", "u", "mc_2022", "VBFHHto4B_CV_m2p12_TuneCP5", "v", "t"] then some ["0000"]
  else if p = ["b", "u", "mc_2022", "VBFHHto4B_CV_m2p12_TuneCP5", "v", "t", "0000"] then
    some ["m2.root"]
  else none

/-- C8 scenario: the catalog the crawl produces (both rewritten keys). -/
def catC8 : Catalog :=
  [("2022",
    [("HH4b",
      [("VBFHHto4B_CV-2p12", ["r//b/u/mc_2022/VBFHHto4B_CV-m2p12_TuneCP5/v/t/0000/m1.root"]),
       ("VBFHHto4B_CV_2p12",
        ["r//b/u/mc_2022/VBFHHto4B_CV_m2p12_TuneCP5/v/t/0000/m2.root"])])])]

/-- C6 witness configuration: an arbitrary concrete crawl configuration. -/
def cfgW : Cfg := ⟨fun _ => none, "r//", ["b"], none, none, false, []⟩

/-- C10 witness jet: central (eta 0), tight-bit set, tiny energy fractions,
two charged constituents. -/
def jetW : Jet := ⟨0, 2, 0, 0, 0, 0, 1/2, 2, 0⟩

/-! ## Association-list lemmas -/

theorem lookupA_setA_self {α : Type} (m : List (String × α)) (k : String) (v : α) :
    lookupA (setA m k v) k = some v := by
  induction m with
  | nil => simp [setA, lookupA]
  | cons hd tl ih =>
    obtain ⟨k', w⟩ := hd
    by_cases h : k' = k
    · simp [setA, lookupA, h]
    · simp [setA, lookupA, h, ih]

theorem lookupA_setA_ne {α : Type} (m : List (String × α)) (k k' : String) (v : α)
    (h : k ≠ k') : lookupA (setA m k v) k' = lookupA m k' := by
  induction m with
  | nil => simp [setA, lookupA, h]
  | cons hd tl ih =>
    obtain ⟨k'', w⟩ := hd
    by_cases h2 : k'' = k
    · subst h2
      simp [setA, lookupA, h]
    · simp [setA, lookupA, h2, ih]

theorem getSample_setSample (files : Catalog) (year sample : String) (e : SampleEntry) :
    getSample (setSample files year sample e) year sample = e := by
  unfold getSample setSample getYear getDA
  rw [lookupA_setA_self]
  simp [lookupA_setA_self]

/-! ## Crawler lemmas -/

/-- The classifier only ever raises its `ValueError` naming the input. -/
theorem getSampleFromSubsample_error (s : String) (d : Bool) (e : CrawlExc)
    (h : getSampleFromSubsample s d = Except.error e) :
    e = CrawlExc.classification (classifyMsg s) := by
  unfold getSampleFromSubsample at h
  cases hc : (if d then classifyData s else classifyMC s) with
  | some t => rw [hc] at h; cases h
  | none =>
    rw [hc] at h
    injection h with h1
    exact h1.symm

/-- No `FileNotFoundError` escapes the NEW-layout subsample loop: failures at
the subsample path or deeper are caught there and the loop moves on. -/
theorem newSubsampleLoop_noNotFound (cfg : Cfg) (isData : Bool) (year : String)
    (ypath : List String) (subs : List String) (st : CrawlSt) :
    isNotFoundExc (newSubsampleLoop cfg isData year ypath subs st).2 = false := by
  induction subs generalizing st with
  | nil => rfl
  | cons sub rest ih =>
    simp only [newSubsampleLoop]
    split
    · rename_i e heq
      have h1 := getSampleFromSubsample_error _ _ _ heq
      subst h1
      rfl
    · rename_i sample heq
      split
      · exact ih st
      · split
        · exact ih _
        · rename_i st2 e hne heq2
          cases e with
          | notFound p => exact (hne p rfl).elim
          | classification m => rfl
          | unboundLocal => rfl
        · exact ih _

/-- No `FileNotFoundError` escapes the OLD-layout subsample loop. -/
theorem oldSubsampleLoop_noNotFound (cfg : Cfg) (isData : Bool) (year sample : String)
    (spath : List String) (subs : List String) (st : CrawlSt) :
    isNotFoundExc (oldSubsampleLoop cfg isData year sample spath subs st).2 = false := by
  induction subs generalizing st with
  | nil => rfl
  | cons sub rest ih =>
    simp only [oldSubsampleLoop]
    split
    · exact ih _
    · rename_i st2 e hne heq
      cases e with
      | notFound p => exact (hne p rfl).elim
      | classification m => rfl
      | unboundLocal => rfl
    · exact ih _

/-- No `FileNotFoundError` escapes the OLD-layout sample loop: in the OLD
layout even the sample- and subsample-level listings are guarded. -/
theorem oldSampleLoop_noNotFound (cfg : Cfg) (year : String) (ypath : List String)
    (samples : List String) (st : CrawlSt) :
    isNotFoundExc (oldSampleLoop cfg year ypath samples st).2 = false := by
  induction samples generalizing st with
  | nil => rfl
  | cons sample rest ih =>
    simp only [oldSampleLoop]
    split
    · exact ih _
    · rename_i subs heq
      split
      · rename_i st2 e heq2
        rw [← heq2]
        exact oldSubsampleLoop_noNotFound _ _ _ _ _ _ _
      · exact ih _

/-! ## Preservation lemmas: every write the crawler performs keeps existing
subsample keys and stays inside its own year entry -/

theorem preservesKeys_refl (a : Catalog) (ys : List String) : PreservesKeys a a ys :=
  ⟨fun _ _ _ h => h, fun _ _ => rfl⟩

theorem preservesKeys_trans {a b c : Catalog} {ys : List String}
    (h1 : PreservesKeys a b ys) (h2 : PreservesKeys b c ys) : PreservesKeys a c ys :=
  ⟨fun y s k h => h2.1 y s k (h1.1 y s k h),
   fun y hy => (h2.2 y hy).trans (h1.2 y hy)⟩

theorem preservesKeys_mono {a b : Catalog} {ys ys' : List String}
    (hss : ys ⊆ ys') (h : PreservesKeys a b ys) : PreservesKeys a b ys' :=
  ⟨h.1, fun y hy => h.2 y (fun hm => hy (hss hm))⟩

theorem not_mem_singleton_ne (y year : String) (h : y ∉ [year]) : y ≠ year := by
  intro e
  exact h (by simp [e])

theorem lookupA_isSome_setA {α : Type} (m : List (String × α)) (key : String) (v : α)
    (k : String) (h : (lookupA m k).isSome = true) :
    (lookupA (setA m key v) k).isSome = true := by
  by_cases hk : key = k
  · subst hk
    rw [lookupA_setA_self]
    rfl
  · rw [lookupA_setA_ne _ _ _ _ hk]
    exact h

theorem setSample_lookupA_ne_year (files : Catalog) (year sample : String)
    (e : SampleEntry) (y : String) (h : y ≠ year) :
    lookupA (setSample files year sample e) y = lookupA files y := by
  unfold setSample
  exact lookupA_setA_ne _ _ _ _ (Ne.symm h)

theorem getSample_setSample_other (files : Catalog) (year sample : String)
    (e : SampleEntry) (y s : String) (h : ¬(y = year ∧ s = sample)) :
    getSample (setSample files year sample e) y s = getSample files y s := by
  by_cases hy : y = year
  · subst hy
    have hs : s ≠ sample := fun hh => h ⟨rfl, hh⟩
    unfold getSample getYear getDA setSample
    rw [lookupA_setA_self]
    simp only [Option.getD_some]
    rw [lookupA_setA_ne _ _ _ _ (Ne.symm hs)]
    rfl
  · unfold getSample getYear getDA
    rw [setSample_lookupA_ne_year files year sample e y hy]

theorem hasKey_setSample_of_entry (files : Catalog) (year sample : String)
    (e : SampleEntry)
    (he : ∀ k, (lookupA (getSample files year sample) k).isSome = true →
      (lookupA e k).isSome = true)
    (y s k : String) (h : hasKey files y s k = true) :
    hasKey (setSample files year sample e) y s k = true := by
  by_cases hys : y = year ∧ s = sample
  · obtain ⟨hy, hs⟩ := hys
    subst hy
    subst hs
    unfold hasKey at *
    rw [getSample_setSample]
    exact he k h
  · unfold hasKey at *
    rw [getSample_setSample_other files year sample e y s hys]
    exact h

theorem hasKey_setSample_empty (files : Catalog) (year sample : String)
    (habs : (lookupA (getYear files year) sample).isNone = true)
    (y s k : String) (h : hasKey files y s k = true) :
    hasKey (setSample files year sample []) y s k = true := by
  refine hasKey_setSample_of_entry files year sample [] ?_ y s k h
  intro k' hk'
  unfold getSample getDA at hk'
  rw [Option.isNone_iff_eq_none.mp habs] at hk'
  simp [lookupA] at hk'

theorem hasKey_setA_year_empty (files : Catalog) (year : String)
    (habs : (lookupA files year).isNone = true)
    (y s k : String) (h : hasKey files y s k = true) :
    hasKey (setA files year []) y s k = true := by
  by_cases hy : y = year
  · subst hy
    unfold hasKey getSample getYear getDA at h
    rw [Option.isNone_iff_eq_none.mp habs] at h
    simp [lookupA] at h
  · unfold hasKey getSample getYear getDA at h ⊢
    rw [lookupA_setA_ne _ _ _ _ (Ne.symm hy)]
    exact h

/-! ## Data-store lemmas (lines 227-233: merge at the stored key, frame
elsewhere) -/

theorem storeDataFiles_lookup (files : Catalog) (year sample f1 : String)
    (tfiles : List String) :
    lookupA (getSample (storeDataFiles files year sample f1 tfiles) year sample)
        (sample ++ "_" ++ replaceS f1 "_DAZSLE_PFNano" "")
      = some (getDA (getSample files year sample)
          (sample ++ "_" ++ replaceS f1 "_DAZSLE_PFNano" "") [] ++ tfiles) := by
  simp only [storeDataFiles]
  rw [getSample_setSample, lookupA_setA_self]
  by_cases hc : (lookupA (getSample files year sample)
      (sample ++ "_" ++ replaceS f1 "_DAZSLE_PFNano" "")).isNone = true
  · rw [if_pos hc]
    unfold getDA
    rw [lookupA_setA_self, Option.isNone_iff_eq_none.mp hc]
    simp
  · rw [if_neg hc]

theorem storeDataFiles_extend (files : Catalog) (year sample f1a f1b : String)
    (ta tb : List String)
    (h : replaceS f1a "_DAZSLE_PFNano" "" = replaceS f1b "_DAZSLE_PFNano" "") :
    lookupA (getSample (storeDataFiles (storeDataFiles files year sample f1a ta)
        year sample f1b tb) year sample)
        (sample ++ "_" ++ replaceS f1b "_DAZSLE_PFNano" "")
      = some (getDA (getSample files year sample)
          (sample ++ "_" ++ replaceS f1b "_DAZSLE_PFNano" "") [] ++ ta ++ tb) := by
  have e2 := storeDataFiles_lookup (storeDataFiles files year sample f1a ta)
    year sample f1b tb
  have e1 := storeDataFiles_lookup files year sample f1a ta
  unfold getDA at e1
  rw [e2, ← h]
  unfold getDA
  rw [e1]
  simp

theorem storeDataFiles_frame (files : Catalog) (year sample f1 : String)
    (t : List String) (y s k : String)
    (h : ¬(y = year ∧ s = sample ∧ k = sample ++ "_" ++ replaceS f1 "_DAZSLE_PFNano" "")) :
    lookupA (getSample (storeDataFiles files year sample f1 t) y s) k
      = lookupA (getSample files y s) k := by
  by_cases hys : y = year ∧ s = sample
  · obtain ⟨hy, hs⟩ := hys
    subst hy
    subst hs
    have hk : k ≠ s ++ "_" ++ replaceS f1 "_DAZSLE_PFNano" "" :=
      fun hh => h ⟨rfl, rfl, hh⟩
    simp only [storeDataFiles]
    rw [getSample_setSample, lookupA_setA_ne _ _ _ _ (Ne.symm hk)]
    split
    · rw [lookupA_setA_ne _ _ _ _ (Ne.symm hk)]
    · rfl
  · simp only [storeDataFiles]
    rw [getSample_setSample_other _ _ _ _ _ _ hys]

theorem storeDataFiles_hasKey (files : Catalog) (year sample f1 : String)
    (t : List String) (y s k : String) (h : hasKey files y s k = true) :
    hasKey (storeDataFiles files year sample f1 t) y s k = true := by
  simp only [storeDataFiles]
  refine hasKey_setSample_of_entry files year sample _ ?_ y s k h
  intro k' hk'
  apply lookupA_isSome_setA
  split
  · exact lookupA_isSome_setA _ _ _ _ hk'
  · exact hk'

theorem storeDataFiles_yframe (files : Catalog) (year sample f1 : String)
    (t : List String) (y : String) (h : y ≠ year) :
    lookupA (storeDataFiles files year sample f1 t) y = lookupA files y := by
  simp only [storeDataFiles]
  exact setSample_lookupA_ne_year _ _ _ _ _ h

/-! ## Single-key (MC-style) store lemmas (lines 245, 310, 314: replace at the
stored key, frame elsewhere) -/

theorem mcStore_replaces (files : Catalog) (year sample name : String)
    (t : List String) :
    lookupA (getSample (setSample files year sample
        (setA (getSample files year sample) name t)) year sample) name = some t := by
  rw [getSample_setSample, lookupA_setA_self]

theorem mcStore_frame (files : Catalog) (year sample name : String)
    (t : List String) (y s k : String) (h : ¬(y = year ∧ s = sample ∧ k = name)) :
    lookupA (getSample (setSample files year sample
        (setA (getSample files year sample) name t)) y s) k
      = lookupA (getSample files y s) k := by
  by_cases hys : y = year ∧ s = sample
  · obtain ⟨hy, hs⟩ := hys
    subst hy
    subst hs
    have hk : k ≠ name := fun hh => h ⟨rfl, rfl, hh⟩
    rw [getSample_setSample, lookupA_setA_ne _ _ _ _ (Ne.symm hk)]
  · rw [getSample_setSample_other _ _ _ _ _ _ hys]

theorem mcStore_hasKey (files : Catalog) (year sample name : String)
    (t : List String) (y s k : String) (h : hasKey files y s k = true) :
    hasKey (setSample files year sample
      (setA (getSample files year sample) name t)) y s k = true := by
  refine hasKey_setSample_of_entry files year sample _ ?_ y s k h
  intro k' hk'
  exact lookupA_isSome_setA _ _ _ _ hk'

/-! ## One-write `PreservesKeys` wrappers -/

theorem storeDataFiles_pk (files : Catalog) (year sample f1 : String)
    (t : List String) :
    PreservesKeys files (storeDataFiles files year sample f1 t) [year] :=
  ⟨fun y s k h => storeDataFiles_hasKey files year sample f1 t y s k h,
   fun y hy => storeDataFiles_yframe files year sample f1 t y
     (not_mem_singleton_ne y year hy)⟩

theorem mcWrite_pk (files : Catalog) (year sample name : String) (t : List String) :
    PreservesKeys files
      (setSample files year sample (setA (getSample files year sample) name t))
      [year] :=
  ⟨fun y s k h => mcStore_hasKey files year sample name t y s k h,
   fun y hy => setSample_lookupA_ne_year _ _ _ _ y (not_mem_singleton_ne y year hy)⟩

theorem initSample_pk (files : Catalog) (year sample : String)
    (habs : (lookupA (getYear files year) sample).isNone = true) :
    PreservesKeys files (setSample files year sample []) [year] :=
  ⟨fun y s k h => hasKey_setSample_empty files year sample habs y s k h,
   fun y hy => setSample_lookupA_ne_year _ _ _ _ y (not_mem_singleton_ne y year hy)⟩

theorem yearInit_pk (files : Catalog) (year : String)
    (habs : (lookupA files year).isNone = true) :
    PreservesKeys files (setA files year []) [year] :=
  ⟨fun y s k h => hasKey_setA_year_empty files year habs y s k h,
   fun y hy => lookupA_setA_ne _ _ _ _
     (Ne.symm (not_mem_singleton_ne y year hy))⟩

/-! ## Loop-level preservation: with `overwrite_sample=false` every crawler
loop keeps existing subsample keys and writes only inside its own year -/

theorem singleton_subset_cons (year : String) (rest : List String) :
    [year] ⊆ year :: rest := by
  intro a ha
  rw [List.mem_singleton] at ha
  subst ha
  exact List.mem_cons_self _ _

theorem initStep_pk (st : CrawlSt) (year sample : String) :
    PreservesKeys st.files
      (if (lookupA (getYear st.files year) sample).isNone = true then
        { st with files := setSample st.files year sample [] }
      else st).files [year] := by
  split
  · rename_i hc
    exact initSample_pk st.files year sample hc
  · exact preservesKeys_refl _ _

theorem yearInitStep_pk (st : CrawlSt) (year : String) :
    PreservesKeys st.files
      (if (lookupA st.files year).isNone = true then
        { st with files := setA st.files year [] }
      else st).files [year] := by
  split
  · rename_i hc
    exact yearInit_pk st.files year hc
  · exact preservesKeys_refl _ _

theorem newDatasetLoop_pk (cfg : Cfg) (isData : Bool) (year sample : String)
    (spath : List String) (f1s : List String) (st st' : CrawlSt)
    (exc : Option CrawlExc)
    (heq : newDatasetLoop cfg isData year sample spath f1s st = (st', exc)) :
    PreservesKeys st.files st'.files [year] := by
  induction f1s generalizing st st' exc with
  | nil =>
    simp only [newDatasetLoop] at heq
    cases heq
    exact preservesKeys_refl _ _
  | cons f1 rest ih =>
    simp only [newDatasetLoop] at heq
    split at heq
    · cases heq
      exact preservesKeys_refl _ _
    · split at heq
      · cases heq
        exact preservesKeys_refl _ _
      · split at heq
        · refine preservesKeys_trans ?_ (ih _ _ _ heq)
          exact storeDataFiles_pk _ _ _ _ _
        · refine preservesKeys_trans ?_ (ih _ _ _ heq)
          exact preservesKeys_refl _ _

theorem newSubsampleBody_pk (cfg : Cfg) (isData : Bool)
    (year sample subsampleName : String) (spath : List String) (st st' : CrawlSt)
    (exc : Option CrawlExc)
    (heq : newSubsampleBody cfg isData year sample subsampleName spath st = (st', exc)) :
    PreservesKeys st.files st'.files [year] := by
  simp only [newSubsampleBody] at heq
  split at heq
  · cases heq
    exact preservesKeys_refl _ _
  · split at heq
    · rename_i st1 e heqd
      cases heq
      exact newDatasetLoop_pk _ _ _ _ _ _ _ _ _ heqd
    · rename_i st1 heqd
      split at heq
      · cases heq
        exact newDatasetLoop_pk _ _ _ _ _ _ _ _ _ heqd
      · split at heq
        · cases heq
          exact newDatasetLoop_pk _ _ _ _ _ _ _ _ _ heqd
        · rename_i t heqt
          cases heq
          exact preservesKeys_trans (newDatasetLoop_pk _ _ _ _ _ _ _ _ _ heqd)
            (mcWrite_pk _ _ _ _ _)

theorem newSubsampleLoop_pk (cfg : Cfg) (isData : Bool) (year : String)
    (ypath : List String) (subs : List String) (st st' : CrawlSt)
    (exc : Option CrawlExc) (how : cfg.ow = false)
    (heq : newSubsampleLoop cfg isData year ypath subs st = (st', exc)) :
    PreservesKeys st.files st'.files [year] := by
  induction subs generalizing st st' exc with
  | nil =>
    simp only [newSubsampleLoop] at heq
    cases heq
    exact preservesKeys_refl _ _
  | cons sub rest ih =>
    simp only [newSubsampleLoop] at heq
    split at heq
    · cases heq
      exact preservesKeys_refl _ _
    · split at heq
      · exact ih _ _ _ heq
      · rw [how] at heq
        simp only [Bool.false_eq_true, if_false] at heq
        split at heq
        · rename_i st2 p heqb
          exact preservesKeys_trans (initStep_pk st year _)
            (preservesKeys_trans (newSubsampleBody_pk _ _ _ _ _ _ _ _ _ heqb)
              (ih _ _ _ heq))
        · rename_i st2 e hne heqb
          cases heq
          exact preservesKeys_trans (initStep_pk st year _)
            (newSubsampleBody_pk _ _ _ _ _ _ _ _ _ heqb)
        · rename_i st2 heqb
          exact preservesKeys_trans (initStep_pk st year _)
            (preservesKeys_trans (newSubsampleBody_pk _ _ _ _ _ _ _ _ _ heqb)
              (ih _ _ _ heq))

theorem newIsDataBody_pk (cfg : Cfg) (user year : String) (isData : Bool)
    (st st' : CrawlSt) (exc : Option CrawlExc) (how : cfg.ow = false)
    (heq : newIsDataBody cfg user year isData st = (st', exc)) :
    PreservesKeys st.files st'.files [year] := by
  simp only [newIsDataBody] at heq
  split at heq
  · exact newSubsampleLoop_pk _ _ _ _ _ _ _ _ how heq
  · split at heq
    · cases heq
      exact preservesKeys_refl _ _
    · exact newSubsampleLoop_pk _ _ _ _ _ _ _ _ how heq

theorem newYearBody_pk (cfg : Cfg) (user year : String) (st st' : CrawlSt)
    (exc : Option CrawlExc) (how : cfg.ow = false)
    (heq : newYearBody cfg user year st = (st', exc)) :
    PreservesKeys st.files st'.files [year] := by
  simp only [newYearBody] at heq
  split at heq
  · rename_i st1 e heqd
    cases heq
    exact newIsDataBody_pk _ _ _ _ _ _ _ how heqd
  · rename_i st1 heqd
    exact preservesKeys_trans (newIsDataBody_pk _ _ _ _ _ _ _ how heqd)
      (newIsDataBody_pk _ _ _ _ _ _ _ how heq)

theorem oldTimeLoop_files (cfg : Cfg) (f1path : List String) (f2s : List String)
    (st st' : CrawlSt) (exc : Option CrawlExc)
    (heq : oldTimeLoop cfg f1path f2s st = (st', exc)) : st'.files = st.files := by
  induction f2s generalizing st st' exc with
  | nil =>
    simp only [oldTimeLoop] at heq
    cases heq
    rfl
  | cons f2 rest ih =>
    simp only [oldTimeLoop] at heq
    split at heq
    · cases heq
      rfl
    · split at heq
      · cases heq
        rfl
      · have h2 := ih _ _ _ heq
        exact h2

theorem oldF1Loop_pk (cfg : Cfg) (isData : Bool) (year sample : String)
    (sspath : List String) (f1s : List String) (st st' : CrawlSt)
    (exc : Option CrawlExc)
    (heq : oldF1Loop cfg isData year sample sspath f1s st = (st', exc)) :
    PreservesKeys st.files st'.files [year] := by
  induction f1s generalizing st st' exc with
  | nil =>
    simp only [oldF1Loop] at heq
    cases heq
    exact preservesKeys_refl _ _
  | cons f1 rest ih =>
    simp only [oldF1Loop] at heq
    split at heq
    · cases heq
      exact preservesKeys_refl _ _
    · split at heq
      · rename_i st1 e heqt
        cases heq
        have hf := oldTimeLoop_files _ _ _ _ _ _ heqt
        rw [hf]
        exact preservesKeys_refl _ _
      · rename_i st1 heqt
        have hf := oldTimeLoop_files _ _ _ _ _ _ heqt
        split at heq
        · split at heq
          · cases heq
            rw [hf]
            exact preservesKeys_refl _ _
          · rename_i t heqtf
            refine preservesKeys_trans ?_ (ih _ _ _ heq)
            rw [hf]
            exact mcWrite_pk _ _ _ _ _
        · refine preservesKeys_trans ?_ (ih _ _ _ heq)
          rw [hf]
          exact preservesKeys_refl _ _

theorem oldSubsampleLoop_pk (cfg : Cfg) (isData : Bool) (year sample : String)
    (spath : List String) (subs : List String) (st st' : CrawlSt)
    (exc : Option CrawlExc)
    (heq : oldSubsampleLoop cfg isData year sample spath subs st = (st', exc)) :
    PreservesKeys st.files st'.files [year] := by
  induction subs generalizing st st' exc with
  | nil =>
    simp only [oldSubsampleLoop] at heq
    cases heq
    exact preservesKeys_refl _ _
  | cons sub rest ih =>
    simp only [oldSubsampleLoop] at heq
    split at heq
    · rename_i st2 p heqIn
      refine preservesKeys_trans ?_ (ih _ _ _ heq)
      split at heqIn
      · rw [Prod.mk.injEq] at heqIn
        rw [← heqIn.1]
        exact preservesKeys_refl _ _
      · split at heqIn
        · rename_i st1 e1 heqf
          rw [Prod.mk.injEq] at heqIn
          rw [← heqIn.1]
          exact oldF1Loop_pk _ _ _ _ _ _ _ _ _ heqf
        · rename_i st1 heqf
          split at heqIn
          · split at heqIn
            · rw [Prod.mk.injEq] at heqIn
              rw [← heqIn.1]
              exact oldF1Loop_pk _ _ _ _ _ _ _ _ _ heqf
            · rename_i t heqtf
              rw [Prod.mk.injEq] at heqIn
              rw [← heqIn.1]
              exact preservesKeys_trans (oldF1Loop_pk _ _ _ _ _ _ _ _ _ heqf)
                (mcWrite_pk _ _ _ _ _)
          · rw [Prod.mk.injEq] at heqIn
            rw [← heqIn.1]
            exact oldF1Loop_pk _ _ _ _ _ _ _ _ _ heqf
    · rename_i st2 e hne heqIn
      rw [Prod.mk.injEq] at heq
      rw [← heq.1]
      split at heqIn
      · rw [Prod.mk.injEq] at heqIn
        rw [← heqIn.1]
        exact preservesKeys_refl _ _
      · split at heqIn
        · rename_i st1 e1 heqf
          rw [Prod.mk.injEq] at heqIn
          rw [← heqIn.1]
          exact oldF1Loop_pk _ _ _ _ _ _ _ _ _ heqf
        · rename_i st1 heqf
          split at heqIn
          · split at heqIn
            · rw [Prod.mk.injEq] at heqIn
              rw [← heqIn.1]
              exact oldF1Loop_pk _ _ _ _ _ _ _ _ _ heqf
            · rename_i t heqtf
              rw [Prod.mk.injEq] at heqIn
              rw [← heqIn.1]
              exact preservesKeys_trans (oldF1Loop_pk _ _ _ _ _ _ _ _ _ heqf)
                (mcWrite_pk _ _ _ _ _)
          · rw [Prod.mk.injEq] at heqIn
            rw [← heqIn.1]
            exact oldF1Loop_pk _ _ _ _ _ _ _ _ _ heqf
    · rename_i st2 heqIn
      refine preservesKeys_trans ?_ (ih _ _ _ heq)
      split at heqIn
      · rw [Prod.mk.injEq] at heqIn
        rw [← heqIn.1]
        exact preservesKeys_refl _ _
      · split at heqIn
        · rename_i st1 e1 heqf
          rw [Prod.mk.injEq] at heqIn
          rw [← heqIn.1]
          exact oldF1Loop_pk _ _ _ _ _ _ _ _ _ heqf
        · rename_i st1 heqf
          split at heqIn
          · split at heqIn
            · rw [Prod.mk.injEq] at heqIn
              rw [← heqIn.1]
              exact oldF1Loop_pk _ _ _ _ _ _ _ _ _ heqf
            · rename_i t heqtf
              rw [Prod.mk.injEq] at heqIn
              rw [← heqIn.1]
              exact preservesKeys_trans (oldF1Loop_pk _ _ _ _ _ _ _ _ _ heqf)
                (mcWrite_pk _ _ _ _ _)
          · rw [Prod.mk.injEq] at heqIn
            rw [← heqIn.1]
            exact oldF1Loop_pk _ _ _ _ _ _ _ _ _ heqf

theorem oldSampleLoop_pk (cfg : Cfg) (year : String) (ypath : List String)
    (samples : List String) (st st' : CrawlSt) (exc : Option CrawlExc)
    (how : cfg.ow = false)
    (heq : oldSampleLoop cfg year ypath samples st = (st', exc)) :
    PreservesKeys st.files st'.files [year] := by
  induction samples generalizing st st' exc with
  | nil =>
    simp only [oldSampleLoop] at heq
    cases heq
    exact preservesKeys_refl _ _
  | cons sample rest ih =>
    simp only [oldSampleLoop] at heq
    rw [how] at heq
    simp only [Bool.false_eq_true, if_false] at heq
    split at heq
    · refine preservesKeys_trans ?_ (ih _ _ _ heq)
      exact initStep_pk st year sample
    · rename_i subs heqT
      split at heq
      · rename_i st2 e heqs
        cases heq
        exact preservesKeys_trans (initStep_pk st year sample)
          (oldSubsampleLoop_pk _ _ _ _ _ _ _ _ _ heqs)
      · rename_i st2 heqs
        refine preservesKeys_trans ?_ (ih _ _ _ heq)
        exact preservesKeys_trans (initStep_pk st year sample)
          (oldSubsampleLoop_pk _ _ _ _ _ _ _ _ _ heqs)

theorem oldYearBody_pk (cfg : Cfg) (user year : String) (st st' : CrawlSt)
    (exc : Option CrawlExc) (how : cfg.ow = false)
    (heq : oldYearBody cfg user year st = (st', exc)) :
    PreservesKeys st.files st'.files [year] := by
  simp only [oldYearBody] at heq
  split at heq
  · cases heq
    exact preservesKeys_refl _ _
  · exact oldSampleLoop_pk _ _ _ _ _ _ _ how heq

theorem yearLoop_pk (cfg : Cfg) (useNew : Bool) (user : String)
    (years : List String) (st st' : CrawlSt) (exc : Option CrawlExc)
    (how : cfg.ow = false)
    (heq : yearLoop cfg useNew user years st = (st', exc)) :
    PreservesKeys st.files st'.files years := by
  induction years generalizing st st' exc with
  | nil =>
    simp only [yearLoop] at heq
    cases heq
    exact preservesKeys_refl _ _
  | cons year rest ih =>
    simp only [yearLoop] at heq
    split at heq
    · rename_i st2 e heqb
      cases heq
      refine preservesKeys_mono (singleton_subset_cons year rest) ?_
      refine preservesKeys_trans (yearInitStep_pk st year) ?_
      split at heqb
      · exact newYearBody_pk _ _ _ _ _ _ how heqb
      · exact oldYearBody_pk _ _ _ _ _ _ how heqb
    · rename_i st2 heqb
      refine preservesKeys_trans ?_
        (preservesKeys_mono (fun _ ha => List.mem_cons_of_mem _ ha) (ih _ _ _ heq))
      refine preservesKeys_mono (singleton_subset_cons year rest) ?_
      refine preservesKeys_trans (yearInitStep_pk st year) ?_
      split at heqb
      · exact newYearBody_pk _ _ _ _ _ _ how heqb
      · exact oldYearBody_pk _ _ _ _ _ _ how heqb

theorem userLoop_pk (cfg : Cfg) (useNew : Bool) (users years : List String)
    (st st' : CrawlSt) (exc : Option CrawlExc) (how : cfg.ow = false)
    (heq : userLoop cfg useNew users years st = (st', exc)) :
    PreservesKeys st.files st'.files years := by
  induction users generalizing st st' exc with
  | nil =>
    simp only [userLoop] at heq
    cases heq
    exact preservesKeys_refl _ _
  | cons u rest ih =>
    simp only [userLoop] at heq
    split at heq
    · rename_i st1 e heqy
      cases heq
      exact yearLoop_pk _ _ _ _ _ _ _ how heqy
    · rename_i st1 heqy
      refine preservesKeys_trans ?_ (ih _ _ _ heq)
      exact yearLoop_pk _ _ _ _ _ _ _ how heqy

theorem xrootd_pk (fs : Listing) (base : List String) (red : String)
    (users : List String) (years : List String)
    (samples? subsamples? : Option (List String)) (files : Catalog)
    (dataSamples : List String) (out : Catalog)
    (hus : users ≠ [])
    (heq : xrootdIndexPrivateNano fs base red (some users) years samples?
      subsamples? (some files) false dataSamples = Except.ok out) :
    (∀ y s k, hasKey files y s k = true → hasKey out y s k = true)
    ∧ (∀ y, y ∉ years → lookupA out y = lookupA files y) := by
  cases users with
  | nil => exact absurd rfl hus
  | cons u us =>
    simp only [xrootdIndexPrivateNano, Option.getD_some] at heq
    have hlen : (u :: us).length > 0 := Nat.succ_pos us.length
    rw [if_pos hlen] at heq
    split at heq
    · cases heq
    · rename_i st heqU
      injection heq with hout
      have hp := userLoop_pk _ _ _ _ _ _ _ rfl heqU
      rw [← hout]
      exact hp

/-! ## Claim theorems -/

/-- C1: a not-found failure while listing a subsample's path or any deeper
path is caught and the crawl continues — but the claim's blanket clause that
no single inaccessible path aborts the whole run is false: in the NEW layout
the `data_{year}`/`mc_{year}` listing (line 180) is outside any `try`, and its
`FileNotFoundError` aborts the run.  Counterexample: layout detection sees
`data_2022` so the NEW branch runs, and the missing `mc_2022` directory kills
the whole crawl. -/
theorem c1_counterexample :
    xrootdIndexPrivateNano fsC1 ["b"] "r//" (some ["alice"]) ["2022"] none none none
      false [] = Except.error (CrawlExc.notFound ["b", "alice", "mc_2022"]) := rfl

/-- C1 (amended): a not-found failure raised while listing a subsample's path
or any deeper path (dataset-version, timestamp, or chunk level) is caught and
the affected branch skipped, the crawl continuing at the same level — no
`FileNotFoundError` ever escapes the NEW-layout subsample loop or the
OLD-layout sample loop; only the NEW layout's uncaught year-directory listing
can abort the run. -/
theorem crawl_notFound_caught_below_year_level :
    (∀ cfg isData year ypath subs st,
      isNotFoundExc (newSubsampleLoop cfg isData year ypath subs st).2 = false)
    ∧ (∀ cfg year ypath samples st,
      isNotFoundExc (oldSampleLoop cfg year ypath samples st).2 = false) :=
  ⟨fun cfg isData year ypath subs st =>
      newSubsampleLoop_noNotFound cfg isData year ypath subs st,
   fun cfg year ypath samples st => oldSampleLoop_noNotFound cfg year ypath samples st⟩

/-- C2: the code does NOT accumulate an MC subsample's files across all its
dataset-version directories: `tfiles` is reset at each dataset-version
directory (line 215), so only the last directory's files are stored.  With
`v1` holding `a.root` and `v2` holding `b.root`, the stored list contains only
the `v2` file. -/
theorem c2_only_last_dataset_dir_retained :
    xrootdIndexPrivateNano fsC2 ["b"] "r//" (some ["alice"]) ["2022"] none none none
        false []
      = Except.ok [("2022", [("HH4b", [("GluGluHHto4B",
          ["r//b/alice/mc_2022/GluGluHHto4B_TuneCP5/v2/t2/0000/b.root"])])])] := rfl

/-- C3: with `overwrite_sample=false`, keys untouched by the new crawl are
preserved, but a touched MC subsample key is REPLACED by the newly collected
list (line 245), not merged: the prior value `old.root` is gone from the
re-crawled key. -/
theorem c3_counterexample :
    xrootdIndexPrivateNano fsC3 ["b"] "r//" (some ["alice"]) ["2022"] none none
        (some priorC3) false [] = Except.ok catC3
    ∧ lookupA (getSample catC3 "2022" "HH4b") "GluGluHHto4B"
        = some ["r//b/alice/mc_2022/GluGluHHto4B_TuneCP5/v1/t1/0000/new.root"]
    ∧ "old.root" ∉ ["r//b/alice/mc_2022/GluGluHHto4B_TuneCP5/v1/t1/0000/new.root"] :=
  ⟨rfl, rfl, by decide⟩

/-- C3 (amended): for EVERY prior catalog, filesystem, and append-mode
re-crawl with `overwrite_sample=false` that completes: (i) every previously
stored subsample key is still present in the result, and every year entry the
crawl was not asked to process keeps exactly its prior value; (ii) every
single-key write the crawler performs on a touched MC subsample key replaces
that key's value and leaves the value of every other (year, sample, key)
unchanged — so untouched keys keep their values; (iii) every data write
merges by appending onto the touched key's prior value and likewise leaves
every other key's value unchanged; (iv) end-to-end on a reloaded catalog:
the untouched key keeps `keep.root`, the touched data key keeps
`olddata.root` and gains the new file, and the touched MC key is replaced. -/
theorem c3_append_merge_semantics :
    (∀ (fs : Listing) (base : List String) (red : String)
      (users years : List String) (samples? subsamples? : Option (List String))
      (files : Catalog) (dataSamples : List String) (out : Catalog),
      users ≠ [] →
      xrootdIndexPrivateNano fs base red (some users) years samples? subsamples?
        (some files) false dataSamples = Except.ok out →
      (∀ y s k, hasKey files y s k = true → hasKey out y s k = true)
      ∧ (∀ y, y ∉ years → lookupA out y = lookupA files y))
    ∧ (∀ (files : Catalog) (year sample name : String) (t : List String) (y s k : String),
      lookupA (getSample (setSample files year sample
          (setA (getSample files year sample) name t)) year sample) name = some t
      ∧ (¬(y = year ∧ s = sample ∧ k = name) →
        lookupA (getSample (setSample files year sample
            (setA (getSample files year sample) name t)) y s) k
          = lookupA (getSample files y s) k))
    ∧ (∀ (files : Catalog) (year sample f1 : String) (t : List String) (y s k : String),
      lookupA (getSample (storeDataFiles files year sample f1 t) year sample)
          (sample ++ "_" ++ replaceS f1 "_DAZSLE_PFNano" "")
        = some (getDA (getSample files year sample)
            (sample ++ "_" ++ replaceS f1 "_DAZSLE_PFNano" "") [] ++ t)
      ∧ (¬(y = year ∧ s = sample ∧ k = sample ++ "_" ++ replaceS f1 "_DAZSLE_PFNano" "") →
        lookupA (getSample (storeDataFiles files year sample f1 t) y s) k
          = lookupA (getSample files y s) k))
    ∧ (xrootdIndexPrivateNano fsC3 ["b"] "r//" (some ["alice"]) ["2022"] none none
        (some priorC3) false [] = Except.ok catC3
      ∧ lookupA (getSample catC3 "2022" "HH4b") "untouched" = some ["keep.root"]
      ∧ lookupA (getSample catC3 "2022" "JetMET") "JetMET_Run2022C"
          = some ["olddata.root",
              "r//b/alice/data_2022/JetMET/Run2022C_DAZSLE_PFNano/t/0000/d.root"]
      ∧ lookupA (getSample catC3 "2022" "HH4b") "GluGluHHto4B"
          = some ["r//b/alice/mc_2022/GluGluHHto4B_TuneCP5/v1/t1/0000/new.root"]) :=
  ⟨fun fs base red users years samples? subsamples? files dataSamples out hus heq =>
      xrootd_pk fs base red users years samples? subsamples? files dataSamples out
        hus heq,
   fun files year sample name t y s k =>
      ⟨mcStore_replaces files year sample name t,
       fun h => mcStore_frame files year sample name t y s k h⟩,
   fun files year sample f1 t y s k =>
      ⟨storeDataFiles_lookup files year sample f1 t,
       fun h => storeDataFiles_frame files year sample f1 t y s k h⟩,
   rfl, rfl, rfl, rfl⟩

/-- C3 witness: on the concrete reloaded catalog `priorC3` and filesystem
`fsC3`, the crawl completes, the untouched key `untouched` is still present,
the year entry `2021` (not crawled) is unchanged, a concrete MC write
replaces its key while leaving a neighbour key's value unchanged, and a
concrete data write appends onto its key's prior value. -/
theorem c3_append_merge_witness :
    (hasKey priorC3 "2022" "HH4b" "untouched" = true
      ∧ hasKey catC3 "2022" "HH4b" "untouched" = true)
    ∧ lookupA catC3 "2021" = lookupA priorC3 "2021"
    ∧ lookupA (getSample (setSample priorC3 "2022" "HH4b"
        (setA (getSample priorC3 "2022" "HH4b") "GluGluHHto4B" ["n.root"]))
        "2022" "HH4b") "GluGluHHto4B" = some ["n.root"]
    ∧ lookupA (getSample (setSample priorC3 "2022" "HH4b"
        (setA (getSample priorC3 "2022" "HH4b") "GluGluHHto4B" ["n.root"]))
        "2022" "HH4b") "untouched" = some ["keep.root"]
    ∧ lookupA (getSample (storeDataFiles priorC3 "2022" "JetMET" "Run2022C_DAZSLE_PFNano"
        ["d2.root"]) "2022" "JetMET") ("JetMET" ++ "_" ++
          replaceS "Run2022C_DAZSLE_PFNano" "_DAZSLE_PFNano" "")
        = some (getDA (getSample priorC3 "2022" "JetMET") ("JetMET" ++ "_" ++
            replaceS "Run2022C_DAZSLE_PFNano" "_DAZSLE_PFNano" "") [] ++ ["d2.root"]) := by
  have H := c3_append_merge_semantics
  refine ⟨⟨by decide, ?_⟩, ?_, ?_, ?_, ?_⟩
  · exact (H.1 fsC3 ["b"] "r//" ["alice"] ["2022"] none none priorC3 [] catC3
      (by decide) H.2.2.2.1).1 "2022" "HH4b" "untouched" (by decide)
  · exact (H.1 fsC3 ["b"] "r//" ["alice"] ["2022"] none none priorC3 [] catC3
      (by decide) H.2.2.2.1).2 "2021" (by decide)
  · exact (H.2.1 priorC3 "2022" "HH4b" "GluGluHHto4B" ["n.root"] "2022" "HH4b"
      "untouched").1
  · exact (H.2.1 priorC3 "2022" "HH4b" "GluGluHHto4B" ["n.root"] "2022" "HH4b"
      "untouched").2 (by decide)
  · exact (H.2.2.1 priorC3 "2022" "JetMET" "Run2022C_DAZSLE_PFNano" ["d2.root"]
      "2022" "JetMET" "x").1

/-- C4: with `overwrite_sample=true` the sample entry is reset at EVERY
subsample that classifies to an already-present sample (lines 190-194), not
exactly once: of the two `QCD` subsamples crawled in the same run, only the
second survives, so the resulting entry does not contain all subsamples
discovered for (2022, QCD). -/
theorem c4_overwrite_discards_same_run_subsamples :
    xrootdIndexPrivateNano fsC4 ["b"] "r//" (some ["alice"]) ["2022"] none none
        (some [("2022", [("QCD", [("old", ["stale.root"])])])]) true []
      = Except.ok [("2022", [("QCD", [("QCD-4Jets_HT-200to400",
          ["r//b/alice/mc_2022/QCD-4Jets_HT-200to400/v1/t/0000/q2.root"])])])] := rfl

/-- C5: layout detection returns NEW exactly when the first probed user's
top-level listing succeeds and contains `data_{year}` or `mc_{year}` for some
requested year; it returns OLD when the listing fails (not-found) or no such
marker exists. -/
theorem hasNewStructure_iff (fs : Listing) (base : List String) (user : String)
    (years : List String) :
    hasNewStructure fs base user years = true ↔
      ∃ l, fs (base ++ [user]) = some l ∧
        ∃ y ∈ years, ("data_" ++ y) ∈ l ∨ ("mc_" ++ y) ∈ l := by
  unfold hasNewStructure
  cases h : fs (base ++ [user]) with
  | none => simp
  | some l => simp [List.any_eq_true, List.contains, List.elem_iff]

/-- C9: an explicitly empty user list makes the crawl return the empty
mapping, discarding any supplied prior catalog (lines 149-154). -/
theorem empty_users_returns_empty_catalog (fs : Listing) (base : List String)
    (red : String) (years : List String) (samples? subsamples? : Option (List String))
    (files : Catalog) (ow : Bool) (dataSamples : List String) :
    xrootdIndexPrivateNano fs base red (some []) years samples? subsamples?
      (some files) ow dataSamples = Except.ok [] := rfl

/-! ## Substring and replacement lemmas (for C8) -/

theorem isPrefixOf_self_append (l t : List Char) : l.isPrefixOf (l ++ t) = true := by
  induction l with
  | nil => simp [List.isPrefixOf]
  | cons c cs ih => simp [List.isPrefixOf, ih]

theorem hasSubCL_of_isPrefixOf (pat s : List Char) (h : pat.isPrefixOf s = true) :
    hasSubCL pat s = true := by
  cases s with
  | nil =>
    cases pat with
    | nil => rfl
    | cons c cs => simp [List.isPrefixOf] at h
  | cons c cs => simp [hasSubCL, h]

theorem hasSubCL_cons (pat : List Char) (c : Char) (s : List Char)
    (h : hasSubCL pat s = true) : hasSubCL pat (c :: s) = true := by
  simp [hasSubCL, h]

theorem replaceAux_id_of_not_sub (pat rep : List Char) (fuel : Nat) (s : List Char)
    (h : hasSubCL pat s = false) : replaceAux pat rep fuel s = s := by
  induction fuel generalizing s with
  | zero => rfl
  | succ fuel ih =>
    cases s with
    | nil => rfl
    | cons c rest =>
      simp only [hasSubCL, Bool.or_eq_false_iff] at h
      simp only [replaceAux, h.1, if_false]
      rw [ih rest h.2]
      simp

theorem replaceAux_intro_rep (pat rep : List Char) (hpat : pat.isEmpty = false) :
    ∀ fuel s, s.length ≤ fuel → hasSubCL pat s = true →
      hasSubCL rep (replaceAux pat rep fuel s) = true := by
  intro fuel
  induction fuel with
  | zero =>
    intro s hlen hsub
    have hs : s = [] := List.length_eq_zero.mp (Nat.le_zero.mp hlen)
    subst hs
    simp [hasSubCL] at hsub
    rw [hsub] at hpat
    cases hpat
  | succ fuel ih =>
    intro s hlen hsub
    cases s with
    | nil =>
      simp [hasSubCL] at hsub
      rw [hsub] at hpat
      cases hpat
    | cons c rest =>
      by_cases hp : pat.isPrefixOf (c :: rest) = true
      · simp only [replaceAux, hp, if_true]
        exact hasSubCL_of_isPrefixOf _ _ (isPrefixOf_self_append rep _)
      · simp only [hasSubCL, Bool.or_eq_true] at hsub
        rcases hsub with hsub | hsub
        · exact absurd hsub hp
        · simp only [replaceAux, hp, if_false]
          exact hasSubCL_cons _ _ _
            (ih rest (Nat.le_of_succ_le_succ hlen) hsub)

theorem replaceS_id_of_not_sub (s pat rep : String) (hp : pat.isEmpty = false)
    (h : hasSubS s pat = false) : replaceS s pat rep = s := by
  unfold replaceS
  rw [hp]
  simp only [Bool.false_eq_true, if_false]
  unfold hasSubS at h
  rw [replaceAux_id_of_not_sub _ _ _ _ h]

/-! ## Jet-ID lemmas (for C10) -/

theorem lepveto_or_structure (a t b c d : Bool)
    (h : (a && t && b && c || d && t) = true) : t = true := by
  cases t
  · simp at h
  · rfl

theorem jetidV12_lepveto_implies_tight (j : Jet)
    (h : (jetidV12 j).2 = true) : (jetidV12 j).1 = true := by
  simp only [jetidV12] at h ⊢
  exact lepveto_or_structure _ _ _ _ _ h

theorem jetidV14_lepveto_implies_tight (j : Jet)
    (h : (jetidV14 j).2 = true) : (jetidV14 j).1 = true := by
  simp only [jetidV14] at h ⊢
  exact lepveto_or_structure _ _ _ _ _ h

/-! ## Remaining claim theorems -/

/-- C6: a subsample name matching no classification rule for the given
`is_data` flag makes the classifier fail with the `ValueError` whose message
names the input, and the NEW-layout subsample loop propagates that error at
once (classification is the first step of the loop body, outside every `try`),
aborting the run regardless of the filesystem or remaining subsamples. -/
theorem classification_error_names_input_and_aborts (s : String) (d : Bool)
    (h : (if d then classifyData s else classifyMC s) = none) :
    getSampleFromSubsample s d = Except.error (CrawlExc.classification (classifyMsg s))
    ∧ (∃ pre post, classifyMsg s = pre ++ s ++ post)
    ∧ ∀ cfg year ypath rest st,
        newSubsampleLoop cfg d year ypath (s :: rest) st
          = (st, some (CrawlExc.classification (classifyMsg s))) := by
  have h1 : getSampleFromSubsample s d
      = Except.error (CrawlExc.classification (classifyMsg s)) := by
    unfold getSampleFromSubsample
    rw [h]
  refine ⟨h1, ⟨"Could not determine sample from subsample name: ",
    ". Please check the naming conventions.", rfl⟩, ?_⟩
  intro cfg year ypath rest st
  simp only [newSubsampleLoop, h1]

/-- C6 witness: the unclassifiable MC name `XYZQ` raises the naming
`ValueError` and kills a concrete crawl loop immediately. -/
theorem classification_error_witness :
    getSampleFromSubsample "XYZQ" false
      = Except.error (CrawlExc.classification (classifyMsg "XYZQ"))
    ∧ newSubsampleLoop cfgW false "2022" ["p"] ["XYZQ"] ⟨[], none⟩
      = (⟨[], none⟩, some (CrawlExc.classification (classifyMsg "XYZQ"))) := by
  have H := classification_error_names_input_and_aborts "XYZQ" false (by decide)
  exact ⟨H.1, H.2.2 cfgW "2022" ["p"] [] ⟨[], none⟩⟩

/-- C7: in the NEW layout with `is_data=true`, each dataset-version directory's
files are stored under `sample ++ "_" ++ f1` with `_DAZSLE_PFNano` stripped
from `f1`; storing extends the key's existing list (first conjunct: one store
appends to whatever is there; second: two directories mapping to one key
accumulate both lists in order); the third conjunct runs this end-to-end:
`Run2022C_DAZSLE_PFNano` and `Run2022C` both land appended on
`JetMET_Run2022C`. -/
theorem data_dataset_dirs_keyed_and_extended :
    (∀ files year sample f1 tfiles,
      lookupA (getSample (storeDataFiles files year sample f1 tfiles) year sample)
          (sample ++ "_" ++ replaceS f1 "_DAZSLE_PFNano" "")
        = some (getDA (getSample files year sample)
            (sample ++ "_" ++ replaceS f1 "_DAZSLE_PFNano" "") [] ++ tfiles))
    ∧ (∀ files year sample f1a f1b ta tb,
        replaceS f1a "_DAZSLE_PFNano" "" = replaceS f1b "_DAZSLE_PFNano" "" →
        lookupA (getSample (storeDataFiles (storeDataFiles files year sample f1a ta)
            year sample f1b tb) year sample)
            (sample ++ "_" ++ replaceS f1b "_DAZSLE_PFNano" "")
          = some (getDA (getSample files year sample)
              (sample ++ "_" ++ replaceS f1b "_DAZSLE_PFNano" "") [] ++ ta ++ tb))
    ∧ xrootdIndexPrivateNano fsC7 ["b"] "r//" (some ["u"]) ["2022"] none none none
          false []
        = Except.ok [("2022", [("JetMET", [("JetMET_Run2022C",
            ["r//b/u/data_2022/JetMET/Run2022C_DAZSLE_PFNano/t1/0000/d1.root",
             "r//b/u/data_2022/JetMET/Run2022C/t2/0000/d2.root"])])])] :=
  ⟨fun files year sample f1 tfiles => storeDataFiles_lookup files year sample f1 tfiles,
   fun files year sample f1a f1b ta tb h =>
     storeDataFiles_extend files year sample f1a f1b ta tb h,
   rfl⟩

/-- C7 witness: the two directory names `Run2022C_DAZSLE_PFNano` and
`Run2022C` strip to the same key, and their stores accumulate in order. -/
theorem data_dataset_dirs_witness :
    replaceS "Run2022C_DAZSLE_PFNano" "_DAZSLE_PFNano" ""
      = replaceS "Run2022C" "_DAZSLE_PFNano" ""
    ∧ lookupA (getSample (storeDataFiles (storeDataFiles [] "2022" "JetMET"
          "Run2022C_DAZSLE_PFNano" ["x"]) "2022" "JetMET" "Run2022C" ["y"])
          "2022" "JetMET")
        ("JetMET" ++ "_" ++ replaceS "Run2022C" "_DAZSLE_PFNano" "")
      = some (getDA (getSample [] "2022" "JetMET")
          ("JetMET" ++ "_" ++ replaceS "Run2022C" "_DAZSLE_PFNano" "") [] ++ ["x"] ++ ["y"]) := by
  have H := data_dataset_dirs_keyed_and_extended
  exact ⟨by decide,
    H.2.1 [] "2022" "JetMET" "Run2022C_DAZSLE_PFNano" "Run2022C" ["x"] ["y"] (by decide)⟩

/-- C8: false as stated — the underscore variant `VBFHHto4B_CV_m2p12` is
rewritten with an underscore (`VBFHHto4B_CV_2p12`), which does not contain the
claimed corrected name `CV-2p12`, although the warning does fire; the crawl
stores it under the underscore-rewritten key. -/
theorem c8_counterexample :
    (fixMislabel "VBFHHto4B_CV_m2p12").1 = "VBFHHto4B_CV_2p12"
    ∧ hasSubS (fixMislabel "VBFHHto4B_CV_m2p12").1 "CV-2p12" = false
    ∧ (fixMislabel "VBFHHto4B_CV_m2p12").2 = true
    ∧ lookupA (getSample catC8 "2022" "HH4b") "VBFHHto4B_CV_2p12"
        = some ["r//b/u/mc_2022/VBFHHto4B_CV_m2p12_TuneCP5/v/t/0000/m2.root"] :=
  ⟨by decide, by decide, by decide, rfl⟩

/-- C8 (amended): the warning fires exactly when the canonical name contains
the dash pattern `VBFHHto4B_CV-m2p12` or its underscore variant; the dash
pattern is rewritten to the corrected `VBFHHto4B_CV-2p12` (second conjunct:
whenever the dash pattern occurs and the dash-rewritten name does not also
contain the underscore pattern, the final fixed name contains
`VBFHHto4B_CV-2p12`), while the underscore variant is rewritten to
`VBFHHto4B_CV_2p12`; the rewritten names are the storage keys, as the
end-to-end crawl of both variants shows. -/
theorem mislabel_rename_semantics :
    (∀ s, (fixMislabel s).2 = true ↔
      (hasSubS s "VBFHHto4B_CV-m2p12" = true ∨ hasSubS s "VBFHHto4B_CV_m2p12" = true))
    ∧ (∀ s, hasSubS s "VBFHHto4B_CV-m2p12" = true →
        hasSubS (replaceS s "VBFHHto4B_CV-m2p12" "VBFHHto4B_CV-2p12")
          "VBFHHto4B_CV_m2p12" = false →
        hasSubS (fixMislabel s).1 "VBFHHto4B_CV-2p12" = true)
    ∧ xrootdIndexPrivateNano fsC8 ["b"] "r//" (some ["u"]) ["2022"] none none none
        false [] = Except.ok catC8 := by
  refine ⟨?_, ?_, rfl⟩
  · intro s
    unfold fixMislabel
    by_cases hc : (hasSubS s "VBFHHto4B_CV-m2p12" || hasSubS s "VBFHHto4B_CV_m2p12") = true
    · simp only [hc, if_true]
      simp only [Bool.or_eq_true] at hc
      simpa using hc
    · simp only [hc, if_false]
      simp only [Bool.or_eq_true] at hc
      simpa using hc
  · intro s h1 h2
    unfold fixMislabel
    rw [if_pos (by simp [h1])]
    simp only
    rw [replaceS_id_of_not_sub _ _ _ (by decide) h2]
    unfold hasSubS replaceS
    rw [if_neg (by decide)]
    exact replaceAux_intro_rep _ _ (by decide) _ _ (Nat.le_refl _) h1

/-- C8 witness: the bare dash-variant name satisfies both hypotheses and its
fixed name contains the corrected `VBFHHto4B_CV-2p12`. -/
theorem mislabel_rename_witness :
    hasSubS "VBFHHto4B_CV-m2p12" "VBFHHto4B_CV-m2p12" = true
    ∧ hasSubS (replaceS "VBFHHto4B_CV-m2p12" "VBFHHto4B_CV-m2p12" "VBFHHto4B_CV-2p12")
        "VBFHHto4B_CV_m2p12" = false
    ∧ hasSubS (fixMislabel "VBFHHto4B_CV-m2p12").1 "VBFHHto4B_CV-2p12" = true := by
  have H := mislabel_rename_semantics
  exact ⟨by decide, by decide, H.2.1 "VBFHHto4B_CV-m2p12" (by decide) (by decide)⟩

/-- C10: for every jet array and index, the tight-with-lepton-veto mask implies
the tight mask elementwise, for both the v12 and the v14 jet ID. -/
theorem jetid_lepveto_implies_tight_masks (jets : List Jet) (i : Nat) :
    ((jetidV12Masks jets).2.getD i false = true →
      (jetidV12Masks jets).1.getD i false = true)
    ∧ ((jetidV14Masks jets).2.getD i false = true →
      (jetidV14Masks jets).1.getD i false = true) := by
  induction jets generalizing i with
  | nil =>
    constructor <;> intro h <;>
      simp [jetidV12Masks, jetidV14Masks, List.getD] at h
  | cons j rest ih =>
    cases i with
    | zero =>
      refine ⟨fun h => ?_, fun h => ?_⟩
      · exact jetidV12_lepveto_implies_tight j (by simpa [jetidV12Masks] using h)
      · exact jetidV14_lepveto_implies_tight j (by simpa [jetidV14Masks] using h)
    | succ n =>
      refine ⟨fun h => ?_, fun h => ?_⟩
      · exact (ih n).1 (by simpa [jetidV12Masks] using h)
      · exact (ih n).2 (by simpa [jetidV14Masks] using h)

/-- C10 witness: a concrete central jet passes both lep-veto masks and hence
both tight masks. -/
theorem jetid_lepveto_witness :
    ((jetidV12Masks [jetW]).2.getD 0 false = true
      ∧ (jetidV12Masks [jetW]).1.getD 0 false = true)
    ∧ ((jetidV14Masks [jetW]).2.getD 0 false = true
      ∧ (jetidV14Masks [jetW]).1.getD 0 false = true) := by
  have H := jetid_lepveto_implies_tight_masks [jetW] 0
  have h12 : (jetidV12Masks [jetW]).2.getD 0 false = true := by
    simp [jetidV12Masks, jetidV12, jetW]
    norm_num
  have h14 : (jetidV14Masks [jetW]).2.getD 0 false = true := by
    simp [jetidV14Masks, jetidV14, jetW]
    norm_num
  exact ⟨⟨h12, H.1 h12⟩, ⟨h14, H.2 h14⟩⟩
